import Mathlib

/-!
Verification development for the seeker/seekr control-plane service.

The Rust sources are shallowly embedded:

* `src/seeker/src/shutdown.rs` — the two-phase shutdown latch.  The tokio
  `Notify` primitive is embedded explicitly: each `Notify` is the list of
  task ids currently blocked in a `notified()` future, `notify_waiters`
  releases exactly the currently-registered waiters and stores no permit
  (the documented tokio semantics), and a released task id is appended to
  the `released` log.  A task blocks forever iff it is never appended to
  `released`.
* `src/seekr/src/kafka/metadata/manager.rs` (and the identical
  `service.rs`) — the metadata manager, embedded as a labelled transition
  system.  Manager operations that run under the state lock are atomic
  steps; poller tasks and the `stop` loop, whose bodies contain await
  points, are split into one step per lock-free region.  `wait_complete`
  inside `stop` is modelled level-triggered (enabled once the latch state
  is `Complete`); under the edge-triggered source semantics every
  unblocking of `wait_complete` implies a `complete()` transition happened
  while the waiter was registered, so every state in which the source's
  `stop` has returned is also reachable here and safety theorems carry
  over.  The edge-triggered race itself is settled on the explicit
  `Shutdown` model.
* `src/seekr/src/clusters/endpoints/v1.rs` — the `create_cluster` handler.
* `src/seekr/src/kafka/metadata/consumer.rs` — `fetch_meta`, over a raw
  snapshot of what librdkafka reports.  Rust's stable `sort_by` is
  embedded as Mathlib's stable `List.insertionSort` with the same
  comparator; the claims proved concern sortedness only, which is
  algorithm-independent.
* `src/seekr/src/indexer.rs` and `src/seekr/src/kafka/streams/service.rs`
  — the indexer scheduler and streams worker.
* `src/seekr/src/subscriptions/store.rs` — `MSSubscriptionStore::get`.

Machine integers (`i64`, `i32`) are embedded as `Int`; the embedded code
performs no arithmetic on them, only equality and ordering, so overflow
cannot be observed.  `DateTime<Utc>` instants are embedded as `Int`
millisecond epochs.  `HashMap` is embedded as an association list with
unique keys.
-/

/-! ### Shutdown latch (src/seeker/src/shutdown.rs) -/

/-- `ShutdownState` from shutdown.rs: `NotStarted`, `Started`, `Complete`. -/
inductive ShutdownState
  | NotStarted
  | Started
  | Complete
deriving Repr, DecidableEq

/-- `Shutdown` from shutdown.rs.  `state` is the `RwLock<Inner>` payload;
`beginWaiters` / `completeWaiters` are the task ids currently registered on
the `begin` / `complete` `Notify`; `released` is the log of task ids woken
by a `notify_waiters` call (a task blocked in `notified()` returns iff its
id reaches `released`). -/
structure Shutdown where
  state : ShutdownState
  beginWaiters : List Nat
  completeWaiters : List Nat
  released : List Nat
deriving Repr, DecidableEq

/-- `Shutdown::new()`. -/
def Shutdown.new : Shutdown :=
  { state := ShutdownState.NotStarted
    beginWaiters := []
    completeWaiters := []
    released := [] }

/-- `Shutdown::is_shutdown()`: true iff the state is `Started` or `Complete`. -/
def Shutdown.isShutdown (sd : Shutdown) : Bool :=
  sd.state == ShutdownState.Started || sd.state == ShutdownState.Complete

/-- `Shutdown::begin()`: if `is_shutdown()` return immediately; otherwise
`begin.notify_waiters()` (release the currently registered begin waiters,
store no permit) and set the state to `Started`. -/
def Shutdown.sdBegin (sd : Shutdown) : Shutdown :=
  if sd.isShutdown then sd
  else
    { sd with
      state := ShutdownState.Started
      beginWaiters := []
      released := sd.released ++ sd.beginWaiters }

/-- `Shutdown::complete()`: `complete.notify_waiters()` then set the state
to `Complete`, unconditionally in every state. -/
def Shutdown.sdComplete (sd : Shutdown) : Shutdown :=
  { sd with
    state := ShutdownState.Complete
    completeWaiters := []
    released := sd.released ++ sd.completeWaiters }

/-- `Shutdown::wait_begin()` by task `t`: registering the `notified()`
future on the `begin` `Notify`.  The task stays blocked until `t` appears
in `released`. -/
def Shutdown.waitBeginRegister (t : Nat) (sd : Shutdown) : Shutdown :=
  { sd with beginWaiters := sd.beginWaiters ++ [t] }

/-- `Shutdown::wait_complete()` by task `t`: registering the `notified()`
future on the `complete` `Notify`. -/
def Shutdown.waitCompleteRegister (t : Nat) (sd : Shutdown) : Shutdown :=
  { sd with completeWaiters := sd.completeWaiters ++ [t] }

/-- The operations other tasks can perform on a `Shutdown` after some
point in time. -/
inductive SdOp
  | beginOp
  | completeOp
  | waitBeginOp (t : Nat)
  | waitCompleteOp (t : Nat)
deriving Repr, DecidableEq

/-- Apply one operation. -/
def SdOp.apply : SdOp → Shutdown → Shutdown
  | SdOp.beginOp, sd => sd.sdBegin
  | SdOp.completeOp, sd => sd.sdComplete
  | SdOp.waitBeginOp t, sd => sd.waitBeginRegister t
  | SdOp.waitCompleteOp t, sd => sd.waitCompleteRegister t

/-- Apply a sequence of operations, oldest first. -/
def applySdOps (ops : List SdOp) (sd : Shutdown) : Shutdown :=
  ops.foldl (fun s o => o.apply s) sd

/-- The latch state reached by `begin(); wait_begin()` — a waiter that
registers after the `NotStarted → Started` transition has fired
(task id `0` plays the late waiter). -/
def lateWaiterShutdown : Shutdown :=
  Shutdown.waitBeginRegister 0 Shutdown.new.sdBegin

/-- Invariant carried by the blocked-late-waiter proof: the latch has
begun, and task `0` has neither been released nor registered on the
`complete` `Notify`. -/
def LateWaiterBlocked (sd : Shutdown) : Prop :=
  sd.isShutdown = true ∧ 0 ∉ sd.released ∧ 0 ∉ sd.completeWaiters

/-! ### Association-list embedding of `HashMap` -/

/-- `HashMap::get`. -/
def mapLookup {K V : Type} [DecidableEq K] : List (K × V) → K → Option V
  | [], _ => none
  | (k, v) :: rest, key => if k = key then some v else mapLookup rest key

/-- `HashMap::insert` (replace the binding when the key is present). -/
def mapInsert {K V : Type} [DecidableEq K] : List (K × V) → K → V → List (K × V)
  | [], key, val => [(key, val)]
  | (k, v) :: rest, key, val =>
    if k = key then (key, val) :: rest else (k, v) :: mapInsert rest key val

/-- `HashMap::remove`. -/
def mapErase {K V : Type} [DecidableEq K] : List (K × V) → K → List (K × V)
  | [], _ => []
  | (k, v) :: rest, key =>
    if k = key then mapErase rest key else (k, v) :: mapErase rest key

/-! ### Data model (src/seekr/src/clusters/cluster.rs, kafka/metadata/mod.rs,
subscriptions/subscription.rs) -/

/-- `Kind` from cluster.rs. -/
inductive Kind
  | Unknown
  | Kafka
deriving Repr, DecidableEq

/-- `Cluster` from cluster.rs.  `config` is the `HashMap<String, String>`;
the two `DateTime<Utc>` instants are millisecond epochs. -/
structure Cluster where
  id : Int
  kind : Kind
  name : String
  config : List (String × String)
  created_at : Int
  updated_at : Int
deriving Repr, DecidableEq

/-- `Cluster::new`: absent id defaults to `0`; both instants are `Utc::now()`
(passed in as `now`). -/
def Cluster.mkNew (id : Option Int) (kind : Kind) (name : String)
    (config : List (String × String)) (now : Int) : Cluster :=
  { id := id.getD 0
    kind := kind
    name := name
    config := config
    created_at := now
    updated_at := now }

/-- `Subscription` from subscription.rs. -/
structure Subscription where
  id : Int
  cluster_id : Int
  topic_name : String
  config : List (String × String)
  created_at : Int
  updated_at : Int
deriving Repr, DecidableEq

/-- `BrokerMetadata` from kafka/metadata/mod.rs. -/
structure BrokerMetadata where
  id : Int
  host : String
  port : Int
deriving Repr, DecidableEq

/-- `GroupMember` from kafka/metadata/mod.rs. -/
structure GroupMember where
  id : String
  client_id : String
  client_host : String
deriving Repr, DecidableEq

/-- `GroupMetadata` from kafka/metadata/mod.rs. -/
structure GroupMetadata where
  name : String
  state : String
  members : List GroupMember
deriving Repr, DecidableEq

/-- `PartitionMetadata` from kafka/metadata/mod.rs. -/
structure PartitionMetadata where
  id : Int
  leader : Int
  replicas : List Int
  isr : List Int
  error : Option String
deriving Repr, DecidableEq

/-- `TopicMetadata` from kafka/metadata/mod.rs. -/
structure TopicMetadata where
  name : String
  partitions : List PartitionMetadata
deriving Repr, DecidableEq

/-- `ClusterMetadata` from kafka/metadata/mod.rs. -/
structure ClusterMetadata where
  brokers : List BrokerMetadata
  groups : List GroupMetadata
  topics : List TopicMetadata
deriving Repr, DecidableEq

/-- `CachedMetadataEntry` from kafka/metadata/manager.rs. -/
inductive CachedMetadataEntry
  | Unknown
  | Processing
  | Meta (m : ClusterMetadata)
  | Failed (reason : String)
deriving Repr, DecidableEq

/-! ### Metadata manager (src/seekr/src/kafka/metadata/manager.rs)

The manager is embedded as a labelled transition system.  Latches are
identified by handles into a latch table holding their `ShutdownState`
(`begin`/`complete` act on the state exactly as in shutdown.rs; the
`Notify` waiter bookkeeping is settled separately on the `Shutdown`
model).  `KafkaMetadataConsumer::create` talks to librdkafka, so whether
construction succeeds for a given cluster is an environment parameter;
the consumer value itself is an opaque handle. -/

/-- `is_shutdown` on the state-level view of a latch. -/
def latchIsShutdown : ShutdownState → Bool
  | ShutdownState.NotStarted => false
  | ShutdownState.Started => true
  | ShutdownState.Complete => true

/-- `Shutdown::begin()` on the latch table: no effect when already
`Started` or `Complete`, otherwise move to `Started`. -/
def latchBegin (ls : List (Nat × ShutdownState)) (l : Nat) :
    List (Nat × ShutdownState) :=
  match mapLookup ls l with
  | none => ls
  | some st => if latchIsShutdown st then ls else mapInsert ls l ShutdownState.Started

/-- `ConsumerContext` from manager.rs: an opaque consumer handle and the
latch handle. -/
structure ConsumerContext where
  consumer : Nat
  sd : Nat
deriving Repr, DecidableEq

/-- One spawned `poll` task: the cluster and context it was given, and
whether its loop has exited. -/
structure PollerTask where
  cluster : Cluster
  ctx : ConsumerContext
  exited : Bool
deriving Repr, DecidableEq

/-- The control state of the `stop()` caller.  `stop` iterates the
contexts captured under the read lock; `done` lists the latch handles it
has already begun and seen complete, `pending` those still to process. -/
inductive StopPhase
  | notCalled
  | running (done pending : List Nat)
  | waiting (done : List Nat) (cur : Nat) (pending : List Nat)
  | returned (done : List Nat)
deriving Repr, DecidableEq

/-- The manager state: the two maps behind the `RwLock`, the latch table,
a fresh-handle counter, the spawned pollers, and the `stop` caller. -/
structure MgrState where
  context : List (Int × ConsumerContext)
  cache : List (Int × CachedMetadataEntry)
  latches : List (Nat × ShutdownState)
  nextHandle : Nat
  pollers : List PollerTask
  stopPhase : StopPhase
deriving Repr, DecidableEq

/-- `MetadataManager::new`: empty context and cache, no pollers. -/
def MgrState.initial : MgrState :=
  { context := []
    cache := []
    latches := []
    nextHandle := 0
    pollers := []
    stopPhase := StopPhase.notCalled }

/-- The environment: whether `KafkaMetadataConsumer::create` succeeds for
a given cluster (librdkafka client construction). -/
structure Env where
  createOk : Cluster → Bool

/-- `MetadataManager::init`: check for an existing context (early return
`Ok` with no change); build the consumer (early return the error with no
change on failure); otherwise insert the context, set the cache entry to
`Processing`, and spawn the poller. -/
def mgrInit (env : Env) (c : Cluster) (s : MgrState) :
    MgrState × Except String Unit :=
  if (mapLookup s.context c.id).isSome then (s, Except.ok ())
  else if env.createOk c then
    let ctx : ConsumerContext := { consumer := s.nextHandle, sd := s.nextHandle }
    ({ s with
        context := mapInsert s.context c.id ctx
        cache := mapInsert s.cache c.id CachedMetadataEntry.Processing
        latches := mapInsert s.latches s.nextHandle ShutdownState.NotStarted
        nextHandle := s.nextHandle + 1
        pollers := s.pollers ++ [{ cluster := c, ctx := ctx, exited := false }] },
      Except.ok ())
  else (s, Except.error "Error creating Kafka metadata consumer")

/-- `MetadataManager::register`: calls `init` and swallows the error
(logs it); the caller never sees it.  Shared with
`MetadataService::register` in service.rs. -/
def mgrRegister (env : Env) (c : Cluster) (s : MgrState) : MgrState :=
  (mgrInit env c s).1

/-- `MetadataManager::remove`: take the context out of the map; if one
was present, `begin()` its latch.  The cache map is not touched. -/
def mgrRemove (i : Int) (s : MgrState) : MgrState :=
  match mapLookup s.context i with
  | none => s
  | some ctx =>
    { s with
      context := mapErase s.context i
      latches := latchBegin s.latches ctx.sd }

/-- `MetadataManager::get`: clone the cache entry under the read lock. -/
def mgrGet (i : Int) (s : MgrState) : Option CachedMetadataEntry :=
  mapLookup s.cache i

/-- The poller's tick branch after `fetch_meta` resolved: write `Meta` on
success, `Failed` with the formatted reason on error. -/
def pollApply (clusterId : Int) (result : Except String ClusterMetadata)
    (s : MgrState) : MgrState :=
  match result with
  | Except.ok m =>
    { s with cache := mapInsert s.cache clusterId (CachedMetadataEntry.Meta m) }
  | Except.error e =>
    { s with
      cache := mapInsert s.cache clusterId
        (CachedMetadataEntry.Failed
          ("Error: Failed to fetch metadata for cluster " ++ toString clusterId
            ++ " - " ++ e)) }

/-- One interleaved step of the manager system.  Poller steps are indexed
by the poller's position; the fetch outcome is a step parameter
(nondeterministic network). -/
inductive Step (env : Env) : MgrState → MgrState → Prop
  | register (c : Cluster) (s : MgrState) :
      Step env s (mgrRegister env c s)
  | removeStep (i : Int) (s : MgrState) :
      Step env s (mgrRemove i s)
  | pollFetch (j : Nat) (p : PollerTask) (result : Except String ClusterMetadata)
      (s : MgrState) (hj : s.pollers.get? j = some p) (hlive : p.exited = false) :
      Step env s (pollApply p.cluster.id result s)
  | pollShutdown (j : Nat) (p : PollerTask) (st : ShutdownState) (s : MgrState)
      (hj : s.pollers.get? j = some p) (hlive : p.exited = false)
      (hst : mapLookup s.latches p.ctx.sd = some st)
      (hsh : latchIsShutdown st = true) :
      Step env s
        { s with
          latches := mapInsert s.latches p.ctx.sd ShutdownState.Complete
          pollers := s.pollers.set j { p with exited := true } }
  | stopCall (s : MgrState) (h : s.stopPhase = StopPhase.notCalled) :
      Step env s
        { s with
          stopPhase := StopPhase.running [] (s.context.map (fun kv => kv.2.sd)) }
  | stopBegin (s : MgrState) (done : List Nat) (l : Nat) (pending : List Nat)
      (h : s.stopPhase = StopPhase.running done (l :: pending)) :
      Step env s
        { s with
          latches := latchBegin s.latches l
          stopPhase := StopPhase.waiting done l pending }
  | stopObserve (s : MgrState) (done : List Nat) (l : Nat) (pending : List Nat)
      (h : s.stopPhase = StopPhase.waiting done l pending)
      (hc : mapLookup s.latches l = some ShutdownState.Complete) :
      Step env s { s with stopPhase := StopPhase.running (done ++ [l]) pending }
  | stopReturn (s : MgrState) (done : List Nat)
      (h : s.stopPhase = StopPhase.running done []) :
      Step env s { s with stopPhase := StopPhase.returned done }

/-- States reachable from a freshly constructed manager. -/
def Reachable (env : Env) (s : MgrState) : Prop :=
  Relation.ReflTransGen (Step env) MgrState.initial s

/-- The latch handles `stop()` has finished waiting on. -/
def doneOf : StopPhase → List Nat
  | StopPhase.notCalled => []
  | StopPhase.running done _ => done
  | StopPhase.waiting done _ _ => done
  | StopPhase.returned done => done

/-- The inductive invariant of the manager system:
handles in the latch table and held by pollers are below the counter,
distinct pollers hold distinct latches, every latch `stop` has finished
waiting on is `Complete`, a poller whose latch is `Complete` has exited,
and every id with a context has a cache entry. -/
def MgrInv (s : MgrState) : Prop :=
  (∀ k : Nat, (mapLookup s.latches k).isSome = true → k < s.nextHandle) ∧
  (∀ j p, s.pollers.get? j = some p → p.ctx.sd < s.nextHandle) ∧
  (∀ j k p q, j ≠ k → s.pollers.get? j = some p → s.pollers.get? k = some q →
    p.ctx.sd ≠ q.ctx.sd) ∧
  (∀ l ∈ doneOf s.stopPhase, mapLookup s.latches l = some ShutdownState.Complete) ∧
  (∀ j p, s.pollers.get? j = some p →
    mapLookup s.latches p.ctx.sd = some ShutdownState.Complete → p.exited = true) ∧
  (∀ i : Int, (mapLookup s.context i).isSome → (mapLookup s.cache i).isSome)

/-! ### Cluster store and the POST /clusters handler
(src/seekr/src/clusters/store.rs, src/seekr/src/clusters/endpoints/v1.rs)

`ClusterStore::insert` assigns an id from the id generator and persists
the record, or fails leaving the store unchanged; the generator value and
the network outcome are folded into one `Except String Int` parameter. -/

/-- The persisted cluster table. -/
structure StoreState where
  clusters : List Cluster
deriving Repr, DecidableEq

/-- `MSClusterStore::insert`: on success the record is persisted with the
assigned id, which is returned; on failure the store is unchanged and the
error is returned. -/
def storeInsert (outcome : Except String Int) (c : Cluster) (st : StoreState) :
    StoreState × Except String Int :=
  match outcome with
  | Except.ok id => ({ clusters := st.clusters ++ [{ c with id := id }] }, Except.ok id)
  | Except.error e => (st, Except.error e)

/-- An HTTP response: status code and body.  JSON bodies are rendered
abstractly. -/
structure HttpResponse where
  status : Nat
  body : String
deriving Repr, DecidableEq

/-- The `create_cluster` handler from clusters/endpoints/v1.rs: build the
cluster with no id, `store.insert`; on `Ok(id)` call
`metadata_service.register` on the cluster with the assigned id (which
swallows any `init` error) and answer `200` with the id; on `Err` answer
`500` with the error text. -/
def create_cluster (env : Env) (insertOutcome : Except String Int) (now : Int)
    (kind : Kind) (name : String) (config : List (String × String))
    (st : StoreState) (ms : MgrState) : StoreState × MgrState × HttpResponse :=
  let cluster := Cluster.mkNew none kind name config now
  match storeInsert insertOutcome cluster st with
  | (st2, Except.ok id) =>
    let ms2 := mgrRegister env { cluster with id := id } ms
    (st2, ms2, { status := 200, body := "id: " ++ toString id })
  | (st2, Except.error e) => (st2, ms, { status := 500, body := e })

/-! ### Indexer scheduler and streams worker
(src/seekr/src/indexer.rs, src/seekr/src/kafka/streams/service.rs) -/

/-- The state of one `StreamsService` worker: the `(cluster, subscription)`
pair it carries and its loop progress.  The `start` loop body is
`sleep(1100ms); log` — it consults no `ShutdownLatch` and has no exit
path, recorded by the `exited` flag that nothing sets. -/
structure StreamsServiceState where
  cluster : Cluster
  subscription : Subscription
  iterations : Nat
  exited : Bool
deriving Repr, DecidableEq

/-- `StreamsService::new`. -/
def StreamsServiceState.mkNew (c : Cluster) (sub : Subscription) :
    StreamsServiceState :=
  { cluster := c, subscription := sub, iterations := 0, exited := false }

/-- One iteration of the `StreamsService::start` loop. -/
def streamsServiceLoopStep (w : StreamsServiceState) : StreamsServiceState :=
  { w with iterations := w.iterations + 1 }

/-- `n` iterations of the `StreamsService::start` loop. -/
def streamsServiceRun : Nat → StreamsServiceState → StreamsServiceState
  | 0, w => w
  | n + 1, w => streamsServiceRun n (streamsServiceLoopStep w)

/-- The `Scheduler` state from indexer.rs: the worker map keyed by
subscription id. -/
structure SchedulerState where
  workers : List (Int × StreamsServiceState)
deriving Repr, DecidableEq

/-- How a call to `Scheduler::stop` terminates. -/
inductive SchedulerStopResult
  | returned
  | panicked (msg : String)
deriving Repr, DecidableEq

/-- `Scheduler::stop` from indexer.rs: reads the worker map under the
read lock and then executes `todo!("shutdown workers")`, which panics
before any latch is begun or waited on. -/
def schedulerStop (_s : SchedulerState) : SchedulerStopResult :=
  SchedulerStopResult.panicked "not yet implemented: shutdown workers"

/-! ### fetch_meta (src/seekr/src/kafka/metadata/consumer.rs)

The raw snapshot is what `fetch_metadata` / `fetch_group_list` report, in
broker order.  A transport or timeout failure returns the error without
producing any `ClusterMetadata`; the embedded function is the success
path over the raw snapshot. -/

/-- A broker as reported by librdkafka. -/
structure RawBroker where
  id : Int
  host : String
  port : Int
deriving Repr, DecidableEq

/-- A partition as reported by librdkafka (error already rendered to a
string, as `fetch_meta` does). -/
structure RawPartition where
  id : Int
  leader : Int
  replicas : List Int
  isr : List Int
  error : Option String
deriving Repr, DecidableEq

/-- A topic as reported by librdkafka. -/
structure RawTopic where
  name : String
  partitions : List RawPartition
deriving Repr, DecidableEq

/-- A group member as reported by librdkafka. -/
structure RawGroupMember where
  id : String
  client_id : String
  client_host : String
deriving Repr, DecidableEq

/-- A group as reported by librdkafka. -/
structure RawGroup where
  name : String
  state : String
  members : List RawGroupMember
deriving Repr, DecidableEq

/-- One raw metadata snapshot. -/
structure RawSnapshot where
  brokers : List RawBroker
  topics : List RawTopic
  groups : List RawGroup
deriving Repr, DecidableEq

/-- The comparator of `brokers.sort_by(|a, b| a.host.cmp(&b.host))`. -/
def brokerLe (a b : BrokerMetadata) : Prop := a.host ≤ b.host

/-- The comparator of `topics.sort_by(|a, b| a.name.cmp(&b.name))`. -/
def topicLe (a b : TopicMetadata) : Prop := a.name ≤ b.name

/-- The comparator of `groups.sort_by(|a, b| a.name.cmp(&b.name))`. -/
def groupLe (a b : GroupMetadata) : Prop := a.name ≤ b.name

/-- The comparator of `partitions.sort_by(|a, b| a.id.cmp(&b.id))`. -/
def partitionLe (a b : PartitionMetadata) : Prop := a.id ≤ b.id

instance : DecidableRel brokerLe :=
  fun a b => inferInstanceAs (Decidable (a.host ≤ b.host))

instance : DecidableRel topicLe :=
  fun a b => inferInstanceAs (Decidable (a.name ≤ b.name))

instance : DecidableRel groupLe :=
  fun a b => inferInstanceAs (Decidable (a.name ≤ b.name))

instance : DecidableRel partitionLe :=
  fun a b => inferInstanceAs (Decidable (a.id ≤ b.id))

instance : IsTotal BrokerMetadata brokerLe :=
  ⟨fun a b => le_total a.host b.host⟩

instance : IsTrans BrokerMetadata brokerLe :=
  ⟨fun _ _ _ hab hbc => le_trans hab hbc⟩

instance : IsTotal TopicMetadata topicLe :=
  ⟨fun a b => le_total a.name b.name⟩

instance : IsTrans TopicMetadata topicLe :=
  ⟨fun _ _ _ hab hbc => le_trans hab hbc⟩

instance : IsTotal GroupMetadata groupLe :=
  ⟨fun a b => le_total a.name b.name⟩

instance : IsTrans GroupMetadata groupLe :=
  ⟨fun _ _ _ hab hbc => le_trans hab hbc⟩

instance : IsTotal PartitionMetadata partitionLe :=
  ⟨fun a b => le_total a.id b.id⟩

instance : IsTrans PartitionMetadata partitionLe :=
  ⟨fun _ _ _ hab hbc => le_trans hab hbc⟩

/-- `KafkaMetadataConsumer::fetch_meta`, success path: map each raw
sequence into the metadata records, sorting brokers by host, each topic's
partitions by id, topics by name and groups by name with a stable sort
(Rust `sort_by`; embedded as the stable `List.insertionSort`). -/
def fetch_meta (raw : RawSnapshot) : ClusterMetadata :=
  let brokers := List.insertionSort brokerLe
    (raw.brokers.map (fun b => { id := b.id, host := b.host, port := b.port }))
  let topics := List.insertionSort topicLe
    (raw.topics.map (fun t =>
      { name := t.name
        partitions := List.insertionSort partitionLe
          (t.partitions.map (fun p =>
            { id := p.id
              leader := p.leader
              replicas := p.replicas
              isr := p.isr
              error := p.error }))
        : TopicMetadata }))
  let groups := List.insertionSort groupLe
    (raw.groups.map (fun g =>
      { name := g.name
        state := g.state
        members := g.members.map (fun m =>
          { id := m.id, client_id := m.client_id, client_host := m.client_host })
        : GroupMetadata }))
  { brokers := brokers, groups := groups, topics := topics }

/-! ### MSSubscriptionStore (src/seekr/src/subscriptions/store.rs) -/

/-- The meilisearch `subscriptions` index: documents keyed by the
stringified primary key `id`. -/
structure MSIndex where
  docs : List (String × Subscription)
deriving Repr, DecidableEq

/-- `Index::get_document`: the document for the key, or an error when the
index has none (meilisearch answers 404, surfaced as `Err`). -/
def msGetDocument (idx : MSIndex) (key : String) : Except String Subscription :=
  match mapLookup idx.docs key with
  | some doc => Except.ok doc
  | none => Except.error "document not found"

/-- `MSSubscriptionStore::get`: fetches the document keyed by
`id.to_string()` and wraps it in `Some`; the `_cluster_id` parameter is
bound but never read. -/
def msSubscriptionGet (idx : MSIndex) (_cluster_id : Int) (id : Int) :
    Except String (Option Subscription) :=
  match msGetDocument idx (toString id) with
  | Except.ok s => Except.ok (some s)
  | Except.error e => Except.error e

/-! ### Concrete inputs used by counterexamples and witnesses -/

/-- An environment in which `KafkaMetadataConsumer::create` always
succeeds. -/
def envAll : Env := { createOk := fun _ => true }

/-- An environment in which `KafkaMetadataConsumer::create` always fails
(for instance, librdkafka rejects the client configuration). -/
def envNone : Env := { createOk := fun _ => false }

/-- A registered cluster with id 1. -/
def exCluster : Cluster :=
  { id := 1
    kind := Kind.Kafka
    name := "c"
    config := []
    created_at := 0
    updated_at := 0 }

/-- The manager state after `register(exCluster)` from boot. -/
def exRegState : MgrState := mgrRegister envAll exCluster MgrState.initial

/-- The manager state after `register(exCluster); remove(1)`. -/
def exRemovedState : MgrState := mgrRemove 1 exRegState

/-- `exRemovedState` after `stop()` was called (no contexts to wait on). -/
def exStopCalled : MgrState :=
  { exRemovedState with
    stopPhase := StopPhase.running []
      (exRemovedState.context.map (fun kv => kv.2.sd)) }

/-- `exStopCalled` after `stop()` returned. -/
def exStopReturned : MgrState :=
  { exStopCalled with stopPhase := StopPhase.returned [] }

/-- The poller spawned for `exCluster`. -/
def exPoller : PollerTask :=
  { cluster := exCluster, ctx := { consumer := 0, sd := 0 }, exited := false }

/-- `exRegState` after `stop()` was called: one context, so one latch to
process. -/
def exStop2Pending : MgrState :=
  { exRegState with
    stopPhase := StopPhase.running []
      (exRegState.context.map (fun kv => kv.2.sd)) }

/-- `exStop2Pending` after `stop()` begun latch 0 and suspended in
`wait_complete`. -/
def exStop2Waiting : MgrState :=
  { exStop2Pending with
    latches := latchBegin exStop2Pending.latches 0
    stopPhase := StopPhase.waiting [] 0 [] }

/-- `exStop2Waiting` after the poller observed `wait_begin`, completed its
latch and exited. -/
def exStop2Done : MgrState :=
  { exStop2Waiting with
    latches := mapInsert exStop2Waiting.latches exPoller.ctx.sd ShutdownState.Complete
    pollers := exStop2Waiting.pollers.set 0 { exPoller with exited := true } }

/-- `exStop2Done` after `stop()` observed the completion. -/
def exStop2Observed : MgrState :=
  { exStop2Done with stopPhase := StopPhase.running ([] ++ [0]) [] }

/-- `exStop2Observed` after `stop()` returned. -/
def exStop2Returned : MgrState :=
  { exStop2Observed with stopPhase := StopPhase.returned ([] ++ [0]) }

/-- A raw snapshot reported out of order: brokers `z` before `a`,
partition 2 before partition 1, groups `g2` before `g1`. -/
def exRaw : RawSnapshot :=
  { brokers :=
      [{ id := 2, host := "z", port := 9092 }, { id := 1, host := "a", port := 9092 }]
    topics :=
      [{ name := "t1"
         partitions :=
           [{ id := 2, leader := 1, replicas := [1], isr := [1], error := none },
            { id := 1, leader := 2, replicas := [2], isr := [2], error := some "e" }] }]
    groups :=
      [{ name := "g2", state := "Stable", members := [] },
       { name := "g1", state := "Empty", members := [] }] }

/-- The record `fetch_meta exRaw` produces for topic `t1`. -/
def exSortedTopic : TopicMetadata :=
  { name := "t1"
    partitions :=
      [{ id := 1, leader := 2, replicas := [2], isr := [2], error := some "e" },
       { id := 2, leader := 1, replicas := [1], isr := [1], error := none }] }

/-- A subscription that belongs to cluster 5. -/
def exSub : Subscription :=
  { id := 7
    cluster_id := 5
    topic_name := "orders"
    config := []
    created_at := 0
    updated_at := 0 }

/-- The `subscriptions` index holding only `exSub`, keyed by `"7"`. -/
def exIdx : MSIndex := { docs := [("7", exSub)] }

/-! ### Helper lemmas: association lists, `List.set`/`List.get?`, latches -/

theorem mapLookup_insert {K V : Type} [DecidableEq K] (m : List (K × V))
    (k key : K) (v : V) :
    mapLookup (mapInsert m k v) key = if key = k then some v else mapLookup m key := by
  induction m with
  | nil =>
    by_cases h : k = key
    · simp [mapInsert, mapLookup, h]
    · simp [mapInsert, mapLookup, h, Ne.symm h]
  | cons kv rest ih =>
    obtain ⟨k0, v0⟩ := kv
    by_cases h0 : k0 = k
    · subst h0
      by_cases h : k0 = key
      · simp [mapInsert, mapLookup, h]
      · simp [mapInsert, mapLookup, h, Ne.symm h]
    · by_cases h : k0 = key
      · subst h
        simp [mapInsert, mapLookup, h0, Ne.symm h0]
      · simp [mapInsert, mapLookup, h0, h, ih]

theorem mapLookup_erase {K V : Type} [DecidableEq K] (m : List (K × V)) (k key : K) :
    mapLookup (mapErase m k) key = if key = k then none else mapLookup m key := by
  induction m with
  | nil => simp [mapErase, mapLookup]
  | cons kv rest ih =>
    obtain ⟨k0, v0⟩ := kv
    by_cases h0 : k0 = k
    · subst h0
      by_cases h : key = k0
      · subst h
        simp [mapErase, mapLookup, ih]
      · simp [mapErase, mapLookup, h, ih, Ne.symm h]
    · by_cases h : k0 = key
      · subst h
        simp [mapErase, mapLookup, h0, ih]
      · simp [mapErase, mapLookup, h0, h, ih]

theorem listGet_set_self {α : Type} (l : List α) (j : Nat) (a b : α)
    (h : l.get? j = some b) : (l.set j a).get? j = some a := by
  induction l generalizing j with
  | nil => simp [List.get?] at h
  | cons x xs ih =>
    cases j with
    | zero => rfl
    | succ n => exact ih n h

theorem listGet_set_other {α : Type} (l : List α) (j k : Nat) (a : α)
    (h : j ≠ k) : (l.set j a).get? k = l.get? k := by
  induction l generalizing j k with
  | nil => rfl
  | cons x xs ih =>
    cases j with
    | zero =>
      cases k with
      | zero => exact absurd rfl h
      | succ n => rfl
    | succ m =>
      cases k with
      | zero => rfl
      | succ n => exact ih m n (fun he => h (he ▸ rfl))

theorem listGet_append_single {α : Type} (l : List α) (a : α) (j : Nat) (p : α)
    (h : (l ++ [a]).get? j = some p) :
    l.get? j = some p ∨ (j = l.length ∧ p = a) := by
  induction l generalizing j with
  | nil =>
    cases j with
    | zero =>
      right
      exact ⟨rfl, (Option.some.injEq _ _ ▸ h).symm⟩
    | succ n => simp [List.get?] at h
  | cons x xs ih =>
    cases j with
    | zero => exact Or.inl h
    | succ n =>
      rcases ih n h with h1 | h2
      · exact Or.inl h1
      · exact Or.inr ⟨by simp [h2.1], h2.2⟩

theorem mapLookup_latchBegin_isSome (ls : List (Nat × ShutdownState)) (l0 k : Nat) :
    (mapLookup (latchBegin ls l0) k).isSome = (mapLookup ls k).isSome := by
  unfold latchBegin
  cases hst : mapLookup ls l0 with
  | none => rfl
  | some st =>
    by_cases hsh : latchIsShutdown st
    · simp [hsh]
    · simp only [hsh, if_false, Bool.false_eq_true, mapLookup_insert]
      by_cases hk : k = l0
      · subst hk
        simp [hst]
      · simp [hk]

theorem mapLookup_latchBegin_complete (ls : List (Nat × ShutdownState)) (l0 k : Nat) :
    mapLookup (latchBegin ls l0) k = some ShutdownState.Complete
      ↔ mapLookup ls k = some ShutdownState.Complete := by
  rcases hst : mapLookup ls l0 with _ | st
  · simp only [latchBegin, hst]
  · simp only [latchBegin, hst]
    by_cases hsh : latchIsShutdown st = true
    · rw [if_pos hsh]
    · rw [if_neg hsh, mapLookup_insert]
      by_cases hk : k = l0
      · subst hk
        rw [if_pos rfl, hst]
        constructor
        · intro he
          simp at he
        · intro he
          injection he with he2
          rw [he2] at hsh
          exact absurd rfl hsh
      · rw [if_neg hk]

/-! ### The manager invariant is inductive -/

theorem mgrInv_initial : MgrInv MgrState.initial := by
  refine ⟨?_, ?_, ?_, ?_, ?_, ?_⟩
  · intro k hk
    simp [MgrState.initial, mapLookup] at hk
  · intro j p hp
    simp [MgrState.initial] at hp
  · intro j k p q hjk hp hq
    simp [MgrState.initial] at hp
  · intro l hl
    simp [MgrState.initial, doneOf] at hl
  · intro j p hp
    simp [MgrState.initial] at hp
  · intro i hi
    simp [MgrState.initial, mapLookup] at hi

theorem mgrInv_step {env : Env} {s s2 : MgrState} (hinv : MgrInv s)
    (hstep : Step env s s2) : MgrInv s2 := by
  obtain ⟨h1, h2, h3, h4, h5, h6⟩ := hinv
  cases hstep with
  | register c =>
    by_cases hc : (mapLookup s.context c.id).isSome = true
    · have he : mgrRegister env c s = s := by
        simp [mgrRegister, mgrInit, hc]
      rw [he]
      exact ⟨h1, h2, h3, h4, h5, h6⟩
    · by_cases hok : env.createOk c = true
      · have he : mgrRegister env c s =
            { s with
              context := mapInsert s.context c.id
                { consumer := s.nextHandle, sd := s.nextHandle }
              cache := mapInsert s.cache c.id CachedMetadataEntry.Processing
              latches := mapInsert s.latches s.nextHandle ShutdownState.NotStarted
              nextHandle := s.nextHandle + 1
              pollers := s.pollers ++
                [{ cluster := c
                   ctx := { consumer := s.nextHandle, sd := s.nextHandle }
                   exited := false }] } := by
          simp [mgrRegister, mgrInit, hc, hok]
        rw [he]
        refine ⟨?_, ?_, ?_, ?_, ?_, ?_⟩
        · intro k hk
          have hk2 : (mapLookup (mapInsert s.latches s.nextHandle
              ShutdownState.NotStarted) k).isSome = true := hk
          rw [mapLookup_insert] at hk2
          show k < s.nextHandle + 1
          by_cases hkn : k = s.nextHandle
          · rw [hkn]
            exact Nat.lt_succ_self _
          · rw [if_neg hkn] at hk2
            exact Nat.lt_succ_of_lt (h1 k hk2)
        · intro j p hp
          have hp2 : (s.pollers ++
              [({ cluster := c
                  ctx := { consumer := s.nextHandle, sd := s.nextHandle }
                  exited := false } : PollerTask)]).get? j = some p := hp
          show p.ctx.sd < s.nextHandle + 1
          rcases listGet_append_single _ _ _ _ hp2 with hold | ⟨_, hnew⟩
          · exact Nat.lt_succ_of_lt (h2 j p hold)
          · rw [hnew]
            exact Nat.lt_succ_self _
        · intro j k p q hjk hp hq
          have hp2 : (s.pollers ++
              [({ cluster := c
                  ctx := { consumer := s.nextHandle, sd := s.nextHandle }
                  exited := false } : PollerTask)]).get? j = some p := hp
          have hq2 : (s.pollers ++
              [({ cluster := c
                  ctx := { consumer := s.nextHandle, sd := s.nextHandle }
                  exited := false } : PollerTask)]).get? k = some q := hq
          rcases listGet_append_single _ _ _ _ hp2 with hpold | ⟨hpl, hpnew⟩
          · rcases listGet_append_single _ _ _ _ hq2 with hqold | ⟨hql, hqnew⟩
            · exact h3 j k p q hjk hpold hqold
            · rw [hqnew]
              exact Nat.ne_of_lt (h2 j p hpold)
          · rcases listGet_append_single _ _ _ _ hq2 with hqold | ⟨hql, hqnew⟩
            · rw [hpnew]
              exact (Nat.ne_of_lt (h2 k q hqold)).symm
            · exact absurd (hpl.trans hql.symm) hjk
        · intro l hl
          have hl2 : l ∈ doneOf s.stopPhase := hl
          have hcl := h4 l hl2
          have hlt : l < s.nextHandle := h1 l (by rw [hcl]; rfl)
          show mapLookup (mapInsert s.latches s.nextHandle ShutdownState.NotStarted) l
            = some ShutdownState.Complete
          rw [mapLookup_insert, if_neg (Nat.ne_of_lt hlt)]
          exact hcl
        · intro j p hp hcomp
          have hp2 : (s.pollers ++
              [({ cluster := c
                  ctx := { consumer := s.nextHandle, sd := s.nextHandle }
                  exited := false } : PollerTask)]).get? j = some p := hp
          have hcomp2 : mapLookup (mapInsert s.latches s.nextHandle
              ShutdownState.NotStarted) p.ctx.sd = some ShutdownState.Complete := hcomp
          rcases listGet_append_single _ _ _ _ hp2 with hold | ⟨_, hnew⟩
          · rw [mapLookup_insert, if_neg (Nat.ne_of_lt (h2 j p hold))] at hcomp2
            exact h5 j p hold hcomp2
          · rw [hnew] at hcomp2
            rw [mapLookup_insert, if_pos rfl] at hcomp2
            simp at hcomp2
        · intro i hi
          have hi2 : (mapLookup (mapInsert s.context c.id
              { consumer := s.nextHandle, sd := s.nextHandle }) i).isSome = true := hi
          show (mapLookup (mapInsert s.cache c.id CachedMetadataEntry.Processing) i).isSome
            = true
          rw [mapLookup_insert]
          by_cases hic : i = c.id
          · rw [if_pos hic]
            rfl
          · rw [if_neg hic]
            rw [mapLookup_insert, if_neg hic] at hi2
            exact h6 i hi2
      · have he : mgrRegister env c s = s := by
          simp [mgrRegister, mgrInit, hc, hok]
        rw [he]
        exact ⟨h1, h2, h3, h4, h5, h6⟩
  | removeStep i =>
    rcases hctx : mapLookup s.context i with _ | ctx
    · have he : mgrRemove i s = s := by
        simp [mgrRemove, hctx]
      rw [he]
      exact ⟨h1, h2, h3, h4, h5, h6⟩
    · have he : mgrRemove i s =
          { s with
            context := mapErase s.context i
            latches := latchBegin s.latches ctx.sd } := by
        simp [mgrRemove, hctx]
      rw [he]
      refine ⟨?_, h2, h3, ?_, ?_, ?_⟩
      · intro k hk
        have hk2 : (mapLookup (latchBegin s.latches ctx.sd) k).isSome = true := hk
        rw [mapLookup_latchBegin_isSome] at hk2
        exact h1 k hk2
      · intro l hl
        have hl2 : l ∈ doneOf s.stopPhase := hl
        show mapLookup (latchBegin s.latches ctx.sd) l = some ShutdownState.Complete
        rw [mapLookup_latchBegin_complete]
        exact h4 l hl2
      · intro j p hp hcomp
        have hcomp2 : mapLookup (latchBegin s.latches ctx.sd) p.ctx.sd
            = some ShutdownState.Complete := hcomp
        rw [mapLookup_latchBegin_complete] at hcomp2
        exact h5 j p hp hcomp2
      · intro i2 hi
        have hi2 : (mapLookup (mapErase s.context i) i2).isSome = true := hi
        rw [mapLookup_erase] at hi2
        by_cases hii : i2 = i
        · rw [if_pos hii] at hi2
          simp at hi2
        · rw [if_neg hii] at hi2
          exact h6 i2 hi2
  | pollFetch j p result s3 hj hlive =>
    rcases result with e | m
    · refine ⟨h1, h2, h3, h4, h5, ?_⟩
      · intro i hi
        have hi2 : (mapLookup s.context i).isSome = true := hi
        show (mapLookup (mapInsert s.cache p.cluster.id
          (CachedMetadataEntry.Failed
            ("Error: Failed to fetch metadata for cluster "
              ++ toString p.cluster.id ++ " - " ++ e))) i).isSome = true
        rw [mapLookup_insert]
        by_cases hic : i = p.cluster.id
        · rw [if_pos hic]
          rfl
        · rw [if_neg hic]
          exact h6 i hi2
    · refine ⟨h1, h2, h3, h4, h5, ?_⟩
      · intro i hi
        have hi2 : (mapLookup s.context i).isSome = true := hi
        show (mapLookup (mapInsert s.cache p.cluster.id
          (CachedMetadataEntry.Meta m)) i).isSome = true
        rw [mapLookup_insert]
        by_cases hic : i = p.cluster.id
        · rw [if_pos hic]
          rfl
        · rw [if_neg hic]
          exact h6 i hi2
  | pollShutdown j p st s3 hj hlive hst hsh =>
    refine ⟨?_, ?_, ?_, ?_, ?_, h6⟩
    · intro k hk
      have hk2 : (mapLookup (mapInsert s.latches p.ctx.sd
          ShutdownState.Complete) k).isSome = true := hk
      rw [mapLookup_insert] at hk2
      by_cases hkn : k = p.ctx.sd
      · rw [hkn]
        exact h2 j p hj
      · rw [if_neg hkn] at hk2
        exact h1 k hk2
    · intro j2 q hq
      have hq2 : (s.pollers.set j { p with exited := true }).get? j2 = some q := hq
      show q.ctx.sd < s.nextHandle
      by_cases hjj : j2 = j
      · subst hjj
        rw [listGet_set_self s.pollers j2 _ p hj] at hq2
        injection hq2 with hq3
        rw [← hq3]
        exact h2 j2 p hj
      · rw [listGet_set_other _ _ _ _ (fun he2 => hjj he2.symm)] at hq2
        exact h2 j2 q hq2
    · intro j2 k2 q r hjk hq hr
      have hq2 : (s.pollers.set j { p with exited := true }).get? j2 = some q := hq
      have hr2 : (s.pollers.set j { p with exited := true }).get? k2 = some r := hr
      have hq3 : ∃ q0, s.pollers.get? j2 = some q0 ∧ q0.ctx.sd = q.ctx.sd := by
        by_cases hjj : j2 = j
        · subst hjj
          rw [listGet_set_self s.pollers j2 _ p hj] at hq2
          injection hq2 with hq4
          exact ⟨p, hj, by rw [← hq4]⟩
        · rw [listGet_set_other _ _ _ _ (fun he2 => hjj he2.symm)] at hq2
          exact ⟨q, hq2, rfl⟩
      have hr3 : ∃ r0, s.pollers.get? k2 = some r0 ∧ r0.ctx.sd = r.ctx.sd := by
        by_cases hkk : k2 = j
        · subst hkk
          rw [listGet_set_self s.pollers k2 _ p hj] at hr2
          injection hr2 with hr4
          exact ⟨p, hj, by rw [← hr4]⟩
        · rw [listGet_set_other _ _ _ _ (fun he2 => hkk he2.symm)] at hr2
          exact ⟨r, hr2, rfl⟩
      obtain ⟨q0, hq0, hq0e⟩ := hq3
      obtain ⟨r0, hr0, hr0e⟩ := hr3
      rw [← hq0e, ← hr0e]
      exact h3 j2 k2 q0 r0 hjk hq0 hr0
    · intro l hl
      have hl2 : l ∈ doneOf s.stopPhase := hl
      show mapLookup (mapInsert s.latches p.ctx.sd ShutdownState.Complete) l
        = some ShutdownState.Complete
      rw [mapLookup_insert]
      by_cases hlp : l = p.ctx.sd
      · rw [if_pos hlp]
      · rw [if_neg hlp]
        exact h4 l hl2
    · intro j2 q hq hcomp
      have hq2 : (s.pollers.set j { p with exited := true }).get? j2 = some q := hq
      have hcomp2 : mapLookup (mapInsert s.latches p.ctx.sd ShutdownState.Complete)
          q.ctx.sd = some ShutdownState.Complete := hcomp
      by_cases hjj : j2 = j
      · subst hjj
        rw [listGet_set_self s.pollers j2 _ p hj] at hq2
        injection hq2 with hq3
        rw [← hq3]
      · rw [listGet_set_other _ _ _ _ (fun he2 => hjj he2.symm)] at hq2
        have hne : q.ctx.sd ≠ p.ctx.sd := h3 j2 j q p hjj hq2 hj
        rw [mapLookup_insert, if_neg hne] at hcomp2
        exact h5 j2 q hq2 hcomp2
  | stopCall s3 h =>
    refine ⟨h1, h2, h3, ?_, h5, h6⟩
    · intro l hl
      have hl2 : l ∈ doneOf (StopPhase.running []
          (s.context.map (fun kv => kv.2.sd))) := hl
      simp [doneOf] at hl2
  | stopBegin s3 done l pending h =>
    refine ⟨?_, h2, h3, ?_, ?_, h6⟩
    · intro k hk
      have hk2 : (mapLookup (latchBegin s.latches l) k).isSome = true := hk
      rw [mapLookup_latchBegin_isSome] at hk2
      exact h1 k hk2
    · intro l2 hl2
      have hl3 : l2 ∈ doneOf (StopPhase.waiting done l pending) := hl2
      simp only [doneOf] at hl3
      show mapLookup (latchBegin s.latches l) l2 = some ShutdownState.Complete
      rw [mapLookup_latchBegin_complete]
      have hl4 : l2 ∈ doneOf s.stopPhase := by
        rw [h]
        exact hl3
      exact h4 l2 hl4
    · intro j q hq hcomp
      have hcomp2 : mapLookup (latchBegin s.latches l) q.ctx.sd
          = some ShutdownState.Complete := hcomp
      rw [mapLookup_latchBegin_complete] at hcomp2
      exact h5 j q hq hcomp2
  | stopObserve s3 done l pending h hc =>
    refine ⟨h1, h2, h3, ?_, h5, h6⟩
    · intro l2 hl2
      have hl3 : l2 ∈ doneOf (StopPhase.running (done ++ [l]) pending) := hl2
      simp only [doneOf] at hl3
      rcases List.mem_append.mp hl3 with hdone | hsing
      · have hl4 : l2 ∈ doneOf s.stopPhase := by
          rw [h]
          exact hdone
        exact h4 l2 hl4
      · rw [List.mem_singleton.mp hsing]
        exact hc
  | stopReturn s3 done h =>
    refine ⟨h1, h2, h3, ?_, h5, h6⟩
    · intro l2 hl2
      have hl3 : l2 ∈ doneOf (StopPhase.returned done) := hl2
      simp only [doneOf] at hl3
      have hl4 : l2 ∈ doneOf s.stopPhase := by
        rw [h]
        exact hl3
      exact h4 l2 hl4

theorem reachable_mgrInv {env : Env} {s : MgrState} (h : Reachable env s) :
    MgrInv s := by
  induction h with
  | refl => exact mgrInv_initial
  | tail hab hbc ih => exact mgrInv_step ih hbc

theorem lateWaiterBlocked_apply (op : SdOp) (sd : Shutdown)
    (h : LateWaiterBlocked sd) (hop : op ≠ SdOp.waitCompleteOp 0) :
    LateWaiterBlocked (op.apply sd) := by
  obtain ⟨hsh, hrel, hcw⟩ := h
  cases op with
  | beginOp =>
    simp only [SdOp.apply, Shutdown.sdBegin, hsh, if_true]
    exact ⟨hsh, hrel, hcw⟩
  | completeOp =>
    refine ⟨rfl, ?_, List.not_mem_nil 0⟩
    simp only [SdOp.apply, Shutdown.sdComplete, List.mem_append]
    exact fun hc => hc.elim hrel hcw
  | waitBeginOp t =>
    exact ⟨hsh, hrel, hcw⟩
  | waitCompleteOp t =>
    refine ⟨hsh, hrel, ?_⟩
    simp only [SdOp.apply, Shutdown.waitCompleteRegister, List.mem_append,
      List.mem_singleton]
    intro hc
    rcases hc with hc | hc
    · exact hcw hc
    · exact hop (by rw [hc])

theorem lateWaiterBlocked_applyOps (ops : List SdOp) (sd : Shutdown)
    (h : LateWaiterBlocked sd) (hops : SdOp.waitCompleteOp 0 ∉ ops) :
    LateWaiterBlocked (applySdOps ops sd) := by
  induction ops generalizing sd with
  | nil => exact h
  | cons op rest ih =>
    have hop : op ≠ SdOp.waitCompleteOp 0 := fun he => hops (he ▸ List.mem_cons_self op rest)
    have hrest : SdOp.waitCompleteOp 0 ∉ rest := fun hm => hops (List.mem_cons_of_mem op hm)
    exact ih (op.apply sd) (lateWaiterBlocked_apply op sd h hop) hrest

theorem sdOp_state_complete (op : SdOp) (sd : Shutdown)
    (h : sd.state = ShutdownState.Complete) :
    (op.apply sd).state = ShutdownState.Complete := by
  cases op with
  | beginOp =>
    have hsh : sd.isShutdown = true := by
      simp [Shutdown.isShutdown, h]
    simp [SdOp.apply, Shutdown.sdBegin, hsh, h]
  | completeOp => rfl
  | waitBeginOp t => exact h
  | waitCompleteOp t => exact h

theorem applySdOps_state_complete (ops : List SdOp) (sd : Shutdown)
    (h : sd.state = ShutdownState.Complete) :
    (applySdOps ops sd).state = ShutdownState.Complete := by
  induction ops generalizing sd with
  | nil => exact h
  | cons op rest ih => exact ih (op.apply sd) (sdOp_state_complete op sd h)

theorem mgrInit_error_fst (env : Env) (c : Cluster) (s : MgrState) (e : String)
    (h : (mgrInit env c s).2 = Except.error e) : (mgrInit env c s).1 = s := by
  by_cases hc : (mapLookup s.context c.id).isSome = true
  · simp [mgrInit, hc]
  · by_cases hok : env.createOk c = true
    · simp [mgrInit, hc, hok] at h
    · simp [mgrInit, hc, hok]

/-- C9: the Shutdown latch does not enforce the begin-before-complete
precondition, and `Complete` is absorbing: `complete()` in any state —
including `NotStarted` with no prior `begin()` — sets the state to
`Complete` and makes `is_shutdown()` return true; `begin()` called when
`is_shutdown()` is already true leaves the latch unchanged; and once the
state is `Complete` no sequence of further operations ever changes it. -/
theorem shutdown_complete_absorbing (sd : Shutdown) :
    sd.sdComplete.state = ShutdownState.Complete
    ∧ sd.sdComplete.isShutdown = true
    ∧ (sd.isShutdown = true → sd.sdBegin = sd)
    ∧ (∀ ops : List SdOp, sd.state = ShutdownState.Complete →
        (applySdOps ops sd).state = ShutdownState.Complete) := by
  refine ⟨rfl, rfl, ?_, fun ops h => applySdOps_state_complete ops sd h⟩
  intro h
  simp [Shutdown.sdBegin, h]

theorem shutdown_complete_absorbing_witness :
    Shutdown.new.sdComplete.sdBegin = Shutdown.new.sdComplete
    ∧ (applySdOps [SdOp.beginOp, SdOp.completeOp] Shutdown.new.sdComplete).state
        = ShutdownState.Complete := by
  have h := shutdown_complete_absorbing Shutdown.new.sdComplete
  exact ⟨h.2.2.1 (by decide), h.2.2.2 [SdOp.beginOp, SdOp.completeOp] (by decide)⟩

/-- C3: the code violates the claim.  A `wait_begin()` that registers
after `begin()` has already fired blocks forever: `begin.notify_waiters`
stored no permit, and no continuation of the system (the blocked task
itself performs no further operations) ever releases the late waiter,
because a second `begin()` returns early once `is_shutdown()` holds and
`complete()` only notifies the `complete` channel. -/
theorem wait_begin_after_begin_blocks_forever (ops : List SdOp)
    (hops : SdOp.waitCompleteOp 0 ∉ ops) :
    0 ∉ (applySdOps ops lateWaiterShutdown).released := by
  have hinit : LateWaiterBlocked lateWaiterShutdown := by
    refine ⟨?_, ?_, ?_⟩ <;> decide
  exact (lateWaiterBlocked_applyOps ops lateWaiterShutdown hinit hops).2.1

theorem wait_begin_after_begin_blocks_forever_witness :
    0 ∉ (applySdOps [SdOp.beginOp, SdOp.completeOp] lateWaiterShutdown).released :=
  wait_begin_after_begin_blocks_forever [SdOp.beginOp, SdOp.completeOp] (by decide)

/-- C6: `register` (via `init`) on a cluster whose id already has a
context is a no-op that returns success: the whole manager state —
context map, cache, latches, pollers — is returned unchanged, and no new
poller is appended. -/
theorem register_existing_id_is_noop (env : Env) (c : Cluster) (s : MgrState)
    (h : (mapLookup s.context c.id).isSome = true) :
    mgrInit env c s = (s, Except.ok ()) := by
  simp [mgrInit, h]

theorem register_existing_id_is_noop_witness :
    mgrInit envAll exCluster exRegState = (exRegState, Except.ok ()) :=
  register_existing_id_is_noop envAll exCluster exRegState (by decide)

/-- C7: when the fetcher (`KafkaMetadataConsumer::create`) fails during
`register` of a not-yet-registered cluster, the error is returned and the
manager state is entirely unchanged: no context is inserted and the cache
is not modified. -/
theorem register_create_failure_is_atomic (env : Env) (c : Cluster) (s : MgrState)
    (h1 : mapLookup s.context c.id = none) (h2 : env.createOk c = false) :
    mgrInit env c s = (s, Except.error "Error creating Kafka metadata consumer") := by
  simp [mgrInit, h1, h2]

theorem register_create_failure_is_atomic_witness :
    mgrInit envNone exCluster MgrState.initial
      = (MgrState.initial, Except.error "Error creating Kafka metadata consumer") :=
  register_create_failure_is_atomic envNone exCluster MgrState.initial rfl rfl

/-- C10: `MSSubscriptionStore::get` ignores its `cluster_id` argument:
for every index state, every subscription id and every pair of cluster
ids, the two calls return the same result; consequently a stored
subscription is retrievable through any `cluster_id`, including one it
does not belong to. -/
theorem ms_subscription_get_ignores_cluster_id (idx : MSIndex) (a b id : Int) :
    msSubscriptionGet idx a id = msSubscriptionGet idx b id
    ∧ ∀ s : Subscription, mapLookup idx.docs (toString id) = some s →
        msSubscriptionGet idx b id = Except.ok (some s) := by
  refine ⟨rfl, fun s hs => ?_⟩
  simp [msSubscriptionGet, msGetDocument, hs]

theorem ms_subscription_get_ignores_cluster_id_witness :
    msSubscriptionGet exIdx 99 7 = Except.ok (some exSub) :=
  (ms_subscription_get_ignores_cluster_id exIdx 5 99 7).2 exSub (by decide)

/-- C5: the code violates the claim.  `Scheduler::stop` does not share
`MetadataManager::stop`'s semantics: for every scheduler state it
executes `todo!("shutdown workers")` and panics before beginning any
latch, and the `StreamsService` worker loop consults no `ShutdownLatch`
at all — no number of loop iterations ever exits it. -/
theorem scheduler_stop_panics (s : SchedulerState) (w : StreamsServiceState)
    (n : Nat) :
    schedulerStop s
      = SchedulerStopResult.panicked "not yet implemented: shutdown workers"
    ∧ (streamsServiceRun n w).exited = w.exited := by
  refine ⟨rfl, ?_⟩
  induction n generalizing w with
  | zero => rfl
  | succ k ih => exact ih (streamsServiceLoopStep w)

/-- C8: for every raw snapshot, the `ClusterMetadata` a successful
`fetch_meta()` returns is canonically sorted — brokers by host, topics by
name, groups by name, and each topic's partitions by id — regardless of
the order the broker reported them in. -/
theorem fetch_meta_canonically_sorted (raw : RawSnapshot) :
    List.Sorted brokerLe (fetch_meta raw).brokers
    ∧ List.Sorted topicLe (fetch_meta raw).topics
    ∧ List.Sorted groupLe (fetch_meta raw).groups
    ∧ ∀ t ∈ (fetch_meta raw).topics, List.Sorted partitionLe t.partitions := by
  refine ⟨List.sorted_insertionSort brokerLe _, List.sorted_insertionSort topicLe _,
    List.sorted_insertionSort groupLe _, ?_⟩
  intro t ht
  have ht2 : t ∈ List.insertionSort topicLe (raw.topics.map (fun rt =>
      ({ name := rt.name
         partitions := List.insertionSort partitionLe (rt.partitions.map (fun p =>
           { id := p.id
             leader := p.leader
             replicas := p.replicas
             isr := p.isr
             error := p.error })) } : TopicMetadata))) := ht
  have ht3 := (List.perm_insertionSort topicLe _).mem_iff.mp ht2
  obtain ⟨rt, hrt, hface⟩ := List.mem_map.mp ht3
  rw [← hface]
  exact List.sorted_insertionSort partitionLe _

theorem fetch_meta_canonically_sorted_witness :
    List.Sorted brokerLe (fetch_meta exRaw).brokers
    ∧ List.Sorted partitionLe exSortedTopic.partitions :=
  ⟨(fetch_meta_canonically_sorted exRaw).1,
   (fetch_meta_canonically_sorted exRaw).2.2.2 exSortedTopic (by decide)⟩

/-- C1: counterexample to the claim.  In the reachable state produced by
`register(exCluster); remove(1)`, the context for id 1 is gone but the
cache entry survives: `get(1)` returns `some Processing`, not absent, so
the key set of the cache is not the key set of the context map. -/
theorem remove_leaves_stale_cache_entry_cex :
    Reachable envAll exRemovedState
    ∧ mapLookup exRemovedState.context 1 = none
    ∧ mgrGet 1 exRemovedState = some CachedMetadataEntry.Processing
    ∧ mgrGet 1 exRemovedState ≠ none := by
  refine ⟨?_, by decide, by decide, by decide⟩
  have s1 : Step envAll MgrState.initial exRegState :=
    Step.register exCluster MgrState.initial
  have s2 : Step envAll exRegState exRemovedState :=
    Step.removeStep 1 exRegState
  exact Relation.ReflTransGen.tail
    (Relation.ReflTransGen.tail Relation.ReflTransGen.refl s1) s2

/-- C1 (amended): `remove` deletes only the context and begins the latch;
the cache entry is not cleared, so a subsequent `get` returns the stale
entry.  What holds in every reachable state is one inclusion: every id
with a context has a cache entry (the cache may hold ids with no
context). -/
theorem context_ids_have_cache_entries (env : Env) (s : MgrState)
    (h : Reachable env s) (i : Int)
    (hc : (mapLookup s.context i).isSome = true) :
    (mapLookup s.cache i).isSome = true :=
  (reachable_mgrInv h).2.2.2.2.2 i hc

theorem context_ids_have_cache_entries_witness :
    (mapLookup exRegState.cache 1).isSome = true :=
  context_ids_have_cache_entries envAll exRegState
    (Relation.ReflTransGen.tail Relation.ReflTransGen.refl
      (Step.register exCluster MgrState.initial)) 1 (by decide)

/-- C2: counterexample to the claim.  `register(exCluster); remove(1)`
leaves a live poller whose context is no longer in the map; `stop()` then
iterates an empty context map and returns at once.  In the reachable
returned state the poller's loop has not exited and its latch is
`Started`, not `Complete`. -/
theorem stop_returns_with_live_poller_cex :
    Reachable envAll exStopReturned
    ∧ exStopReturned.stopPhase = StopPhase.returned []
    ∧ exStopReturned.pollers.get? 0 = some exPoller
    ∧ exPoller.exited = false
    ∧ mapLookup exStopReturned.latches exPoller.ctx.sd = some ShutdownState.Started := by
  refine ⟨?_, by decide, by decide, by decide, by decide⟩
  have s1 : Step envAll MgrState.initial exRegState :=
    Step.register exCluster MgrState.initial
  have s2 : Step envAll exRegState exRemovedState :=
    Step.removeStep 1 exRegState
  have s3 : Step envAll exRemovedState exStopCalled :=
    Step.stopCall exRemovedState (by decide)
  have s4 : Step envAll exStopCalled exStopReturned :=
    Step.stopReturn exStopCalled [] (by decide)
  exact Relation.ReflTransGen.tail (Relation.ReflTransGen.tail
    (Relation.ReflTransGen.tail
      (Relation.ReflTransGen.tail Relation.ReflTransGen.refl s1) s2) s3) s4

/-- C2 (amended): what `stop()` does guarantee on return is confined to
the latches it iterated — the contexts present in the map when it ran:
every latch `stop` finished waiting on is `Complete`, and every poller
holding such a latch has exited.  Pollers removed from the map before
`stop` ran may still be live. -/
theorem stop_waited_latches_complete (env : Env) (s : MgrState)
    (h : Reachable env s) (done : List Nat)
    (hret : s.stopPhase = StopPhase.returned done) (l : Nat) (hl : l ∈ done) :
    mapLookup s.latches l = some ShutdownState.Complete
    ∧ ∀ j p, s.pollers.get? j = some p → p.ctx.sd = l → p.exited = true := by
  obtain ⟨h1, h2, h3, h4, h5, h6⟩ := reachable_mgrInv h
  have hmem : l ∈ doneOf s.stopPhase := by
    rw [hret]
    exact hl
  have hcl := h4 l hmem
  exact ⟨hcl, fun j p hp hsd => h5 j p hp (by rw [hsd]; exact hcl)⟩

theorem stop_waited_latches_complete_witness :
    mapLookup exStop2Returned.latches 0 = some ShutdownState.Complete := by
  have s1 : Step envAll MgrState.initial exRegState :=
    Step.register exCluster MgrState.initial
  have s2 : Step envAll exRegState exStop2Pending :=
    Step.stopCall exRegState (by decide)
  have s3 : Step envAll exStop2Pending exStop2Waiting :=
    Step.stopBegin exStop2Pending [] 0 [] (by decide)
  have s4 : Step envAll exStop2Waiting exStop2Done :=
    Step.pollShutdown 0 exPoller ShutdownState.Started exStop2Waiting
      (by decide) (by decide) (by decide) (by decide)
  have s5 : Step envAll exStop2Done exStop2Observed :=
    Step.stopObserve exStop2Done [] 0 [] (by decide) (by decide)
  have s6 : Step envAll exStop2Observed exStop2Returned :=
    Step.stopReturn exStop2Observed ([] ++ [0]) (by decide)
  have hreach : Reachable envAll exStop2Returned :=
    Relation.ReflTransGen.tail (Relation.ReflTransGen.tail
      (Relation.ReflTransGen.tail (Relation.ReflTransGen.tail
        (Relation.ReflTransGen.tail
          (Relation.ReflTransGen.tail Relation.ReflTransGen.refl s1) s2) s3) s4) s5) s6
  exact (stop_waited_latches_complete envAll exStop2Returned hreach
    ([] ++ [0]) (by decide) 0 (by decide)).1

/-- C4: counterexample to the claim.  With `store.insert` succeeding
(assigned id 1) and `KafkaMetadataConsumer::create` failing during
`register`, the handler answers 200 — not 500 — while the register error
really occurred and the cluster really is persisted. -/
theorem create_cluster_register_error_cex :
    (create_cluster envNone (Except.ok 1) 0 Kind.Kafka "c" []
      { clusters := [] } MgrState.initial).2.2.status = 200
    ∧ (create_cluster envNone (Except.ok 1) 0 Kind.Kafka "c" []
        { clusters := [] } MgrState.initial).2.2.status ≠ 500
    ∧ (mgrInit envNone { Cluster.mkNew none Kind.Kafka "c" [] 0 with id := 1 }
        MgrState.initial).2
      = Except.error "Error creating Kafka metadata consumer"
    ∧ (create_cluster envNone (Except.ok 1) 0 Kind.Kafka "c" []
        { clusters := [] } MgrState.initial).1.clusters
      = [{ Cluster.mkNew none Kind.Kafka "c" [] 0 with id := 1 }] :=
  ⟨rfl, by decide, rfl, rfl⟩

/-- C4 (amended): when `store.insert` succeeds and `register` fails, the
cluster remains persisted with the assigned id, the manager state is
unchanged, and the handler returns 200 with the id — the register error
is swallowed (logged) by `MetadataService::register` and never reaches
the HTTP caller. -/
theorem create_cluster_register_error_returns_ok (env : Env) (id now : Int)
    (kind : Kind) (name : String) (config : List (String × String))
    (st : StoreState) (ms : MgrState) (e : String)
    (hreg : (mgrInit env { Cluster.mkNew none kind name config now with id := id }
      ms).2 = Except.error e) :
    create_cluster env (Except.ok id) now kind name config st ms
      = ({ clusters := st.clusters ++
            [{ Cluster.mkNew none kind name config now with id := id }] },
         ms,
         { status := 200, body := "id: " ++ toString id }) := by
  have h1 := mgrInit_error_fst env
    { Cluster.mkNew none kind name config now with id := id } ms e hreg
  simp [create_cluster, storeInsert, mgrRegister, h1]

theorem create_cluster_register_error_returns_ok_witness :
    create_cluster envNone (Except.ok 1) 0 Kind.Kafka "c" []
      { clusters := [] } MgrState.initial
      = ({ clusters := [{ Cluster.mkNew none Kind.Kafka "c" [] 0 with id := 1 }] },
         MgrState.initial,
         { status := 200, body := "id: " ++ toString (1 : Int) }) := by
  have h := create_cluster_register_error_returns_ok envNone 1 0 Kind.Kafka "c" []
    { clusters := [] } MgrState.initial
    "Error creating Kafka metadata consumer" rfl
  simpa using h
